import Mathlib

/-!
Shallow embedding of the eFootball Tournament Manager core
(src/js/models/match.js, group.js, tournament.js,
src/js/utils/helpers.js, src/js/controllers/knockoutController.js,
src/js/views/knockoutView.js), together with proofs about the frozen
claims on standings sorting, knockout progression, bracket generation,
result validation and serialization.

Modelling conventions:
* JS numbers that hold scores are modelled as `Int` (the UI parses the
  text fields with `parseInt` before the model code runs); `null` is
  `Option.none`.
* JS `Date`-based unique-id generation (`Date.now()`, `Math.random()`)
  is impure; functions that mint ids take the fresh ids as an explicit
  parameter.
* `Array.prototype.sort` with a comparator is modelled as a stable
  insertion sort that places `a` before `b` whenever `cmp a b ≤ 0`.
* `localeCompare` on team names is modelled as lexicographic
  comparison of the underlying character lists.
* JS arithmetic comparisons against `null` coerce `null` to `0`; the
  embedding uses `Option.getD 0` at exactly those places.
-/

namespace EFT

/-- A team as stored on matches and groups: `id` (a string, or `null`
for TBD placeholders) and a display name. -/
structure Team where
  id : Option String
  name : String
  deriving DecidableEq, Repr

/-- A standings row as built by `calculateGroupStandings`
(helpers.js:200) and `Group.recalculateStandings` (group.js:109). -/
structure Row where
  id : Option String
  name : String
  played : Int
  won : Int
  drawn : Int
  lost : Int
  goalsFor : Int
  goalsAgainst : Int
  goalDifference : Int
  points : Int
  deriving DecidableEq, Repr

/-- The `extraTime` record of a match (match.js:55). -/
structure ExtraTime where
  played : Bool
  homeScore : Option Int
  awayScore : Option Int
  deriving DecidableEq, Repr

/-- The `penalties` record of a match (match.js:61). -/
structure Penalties where
  played : Bool
  homeScore : Option Int
  awayScore : Option Int
  winner : Option Team
  deriving DecidableEq, Repr

/-- A match (match.js:18-67, without the `Date` fields and the unused
`stats` record, which carry no behaviour relevant to the claims). -/
structure Match where
  id : String
  homeTeam : Team
  awayTeam : Team
  homeScore : Option Int
  awayScore : Option Int
  played : Bool
  matchday : Option Int
  round : Option String
  roundIndex : Option Int
  groupId : Option String
  venue : String
  winner : Option Team
  extraTime : ExtraTime
  penalties : Penalties
  deriving DecidableEq, Repr

/-- Fresh `extraTime` record, as in the `Match` constructor. -/
def defaultExtraTime : ExtraTime := ⟨false, none, none⟩

/-- Fresh `penalties` record, as in the `Match` constructor. -/
def defaultPenalties : Penalties := ⟨false, none, none, none⟩

/-- A knockout round as held by KnockoutController: a name and an
ordered list of matches (knockoutController.js:63-147). -/
structure KRound where
  name : String
  «matches» : List Match
  deriving DecidableEq, Repr

/-- A qualified team as produced by `determineQualifiedTeams`: the team
together with the name of its source group. -/
structure QTeam where
  team : Team
  groupName : String
  deriving DecidableEq, Repr

/-! ### Generic list machinery -/

/-- In-place update of element `i` (no-op out of bounds), mirroring a
JS statement `arr[i].f = ...` on an array of records. -/
def modifyAt (l : List α) (i : Nat) (f : α → α) : List α :=
  match l.get? i with
  | none => l
  | some a => l.set i (f a)

/-- Stable insertion into a comparator-sorted list: `x` is placed
before the first element `y` with `le x y`. -/
def insertSorted (le : α → α → Bool) (x : α) : List α → List α
  | [] => [x]
  | y :: ys => if le x y then x :: y :: ys else y :: insertSorted le x ys

/-- Stable sort by a boolean comparator; models
`Array.prototype.sort(cmp)` with `le a b = (cmp a b ≤ 0)`. -/
def sortBy (le : α → α → Bool) : List α → List α
  | [] => []
  | x :: xs => insertSorted le x (sortBy le xs)

/-- Executable check that consecutive elements satisfy the comparator. -/
def isSortedBy (le : α → α → Bool) : List α → Bool
  | [] => true
  | [_] => true
  | a :: b :: rest => le a b && isSortedBy le (b :: rest)

/-! ### Name comparison

`a.name.localeCompare(b.name)` is modelled as lexicographic comparison
of the character lists, returning `-1`, `0` or `1`. -/

/-- Lexicographic order on character lists. -/
def charListLt : List Char → List Char → Bool
  | _, [] => false
  | [], _ :: _ => true
  | a :: restA, b :: restB =>
    if a < b then true else if b < a then false else charListLt restA restB

/-- Lexicographic order on strings. -/
def strLt (a b : String) : Bool := charListLt a.data b.data

/-- Model of `a.localeCompare(b)`: negative, zero or positive. -/
def nameCmp (a b : String) : Int :=
  if strLt a b then -1 else if strLt b a then 1 else 0

/-! ### Standings calculation

`calculateGroupStandings` (helpers.js:200-260) and
`Group.recalculateStandings` (group.js:109-173) contain the identical
accumulation loop, embedded once below as `processMatch`; they differ
only in the final sort (helpers.js sorts without the head-to-head
step, group.js sorts with it). -/

/-- Zero-initialised standings row for one team (helpers.js:202-212,
group.js:111-122). -/
def initRow (t : Team) : Row :=
  { id := t.id, name := t.name, played := 0, won := 0, drawn := 0,
    lost := 0, goalsFor := 0, goalsAgainst := 0, goalDifference := 0,
    points := 0 }

/-- The body of the `matches.forEach` accumulation loop
(helpers.js:215-251, group.js:125-162), one JS mutation statement per
`modifyAt`.  The guarded scores are non-null, extracted with
`Option.getD 0`. -/
def processMatch (st : List Row) (m : Match) : List Row :=
  if m.played = true ∧ m.homeScore ≠ none ∧ m.awayScore ≠ none then
    match st.findIdx? (fun r => r.id == m.homeTeam.id),
          st.findIdx? (fun r => r.id == m.awayTeam.id) with
    | some hi, some ai =>
      let hs := m.homeScore.getD 0
      let gsA := m.awayScore.getD 0
      let s1 := modifyAt st hi (fun r => { r with played := r.played + 1 })
      let s2 := modifyAt s1 ai (fun r => { r with played := r.played + 1 })
      let s3 := modifyAt s2 hi (fun r =>
        { r with goalsFor := r.goalsFor + hs, goalsAgainst := r.goalsAgainst + gsA })
      let s4 := modifyAt s3 ai (fun r =>
        { r with goalsFor := r.goalsFor + gsA, goalsAgainst := r.goalsAgainst + hs })
      if hs > gsA then
        modifyAt (modifyAt s4 hi (fun r => { r with won := r.won + 1, points := r.points + 3 }))
          ai (fun r => { r with lost := r.lost + 1 })
      else if hs < gsA then
        modifyAt (modifyAt s4 ai (fun r => { r with won := r.won + 1, points := r.points + 3 }))
          hi (fun r => { r with lost := r.lost + 1 })
      else
        modifyAt (modifyAt s4 hi (fun r => { r with drawn := r.drawn + 1, points := r.points + 1 }))
          ai (fun r => { r with drawn := r.drawn + 1, points := r.points + 1 })
    | _, _ => st
  else st

/-- Final `goalDifference` pass (helpers.js:254-256, group.js:165-167). -/
def applyGD (st : List Row) : List Row :=
  st.map (fun r => { r with goalDifference := r.goalsFor - r.goalsAgainst })

/-- Comparator of `sortGroupStandings` (helpers.js:272-295): points,
goal difference, goals scored, then name; the head-to-head step is
absent ("This is simplified for now", helpers.js:292-293). -/
def cmpRows (a b : Row) : Int :=
  if b.points ≠ a.points then b.points - a.points
  else if b.goalDifference ≠ a.goalDifference then b.goalDifference - a.goalDifference
  else if b.goalsFor ≠ a.goalsFor then b.goalsFor - a.goalsFor
  else nameCmp a.name b.name

/-- `sortGroupStandings` (helpers.js:272-295). -/
def sortGroupStandings (standings : List Row) : List Row :=
  sortBy (fun a b => decide (cmpRows a b ≤ 0)) standings

/-- `calculateGroupStandings` (helpers.js:200-260). -/
def calculateGroupStandings (teams : List Team) (mlist : List Match) : List Row :=
  sortGroupStandings (applyGD (mlist.foldl processMatch (teams.map initRow)))

/-- `Group._getHeadToHeadResult` (group.js:221-251): first played match
between the two ids decides; positive means team A finished above. -/
def getHeadToHeadResult (mlist : List Match) (teamAId teamBId : Option String) : Int :=
  match mlist.find? (fun m =>
      decide ((m.homeTeam.id = teamAId ∧ m.awayTeam.id = teamBId) ∨
              (m.homeTeam.id = teamBId ∧ m.awayTeam.id = teamAId)) && m.played) with
  | none => 0
  | some m =>
    if m.homeTeam.id = teamAId then
      if m.homeScore.getD 0 > m.awayScore.getD 0 then 1
      else if m.homeScore.getD 0 < m.awayScore.getD 0 then -1
      else 0
    else
      if m.awayScore.getD 0 > m.homeScore.getD 0 then 1
      else if m.awayScore.getD 0 < m.homeScore.getD 0 then -1
      else 0

/-- Comparator of `Group.sortStandings` (group.js:184-212): points,
goal difference, goals scored, head-to-head, then name. -/
def groupCmp (mlist : List Match) (a b : Row) : Int :=
  if b.points ≠ a.points then b.points - a.points
  else if b.goalDifference ≠ a.goalDifference then b.goalDifference - a.goalDifference
  else if b.goalsFor ≠ a.goalsFor then b.goalsFor - a.goalsFor
  else
    let headToHead := getHeadToHeadResult mlist a.id b.id
    if headToHead ≠ 0 then headToHead
    else nameCmp a.name b.name

/-- `Group.sortStandings` (group.js:184-212); the comparator closes
over the group's match list. -/
def sortStandings (mlist : List Match) (standings : List Row) : List Row :=
  sortBy (fun a b => decide (groupCmp mlist a b ≤ 0)) standings

/-- `Group.recalculateStandings` (group.js:109-173): same accumulation
as the helpers calculator, then `sortStandings`. -/
def recalculateStandings (teams : List Team) (mlist : List Match) : List Row :=
  sortStandings mlist (applyGD (mlist.foldl processMatch (teams.map initRow)))

/-! ### Match result operations -/

/-- `Match.updateResult` (match.js:75-91): unconditionally records the
scores, marks the match played, and sets `winner` by comparison (no
validation of the inputs happens here). -/
def updateResult (m : Match) (homeScore awayScore : Int) : Match :=
  let m1 := { m with homeScore := some homeScore, awayScore := some awayScore, played := true }
  if homeScore > awayScore then { m1 with winner := some m.homeTeam }
  else if homeScore < awayScore then { m1 with winner := some m.awayTeam }
  else { m1 with winner := none }

/-- `Helpers.updateMatchResult` (helpers.js:696-712): identical
mutations to `Match.updateResult` on the plain match record (its
`groups` argument is unused by the function body). -/
def updateMatchResult (m : Match) (homeScore awayScore : Int) : Match :=
  let m1 := { m with homeScore := some homeScore, awayScore := some awayScore, played := true }
  if homeScore > awayScore then { m1 with winner := some m.homeTeam }
  else if homeScore < awayScore then { m1 with winner := some m.awayTeam }
  else { m1 with winner := none }

/-- `Match.updatePenaltyResult` (match.js:127-146): records the penalty
scores and marks the shootout played; on a level score only a
`console.error` is emitted and the winner fields keep their prior
values. -/
def updatePenaltyResult (m : Match) (homeScore awayScore : Int) : Match :=
  let p := { m.penalties with played := true, homeScore := some homeScore,
                              awayScore := some awayScore }
  if homeScore > awayScore then
    { m with winner := some m.homeTeam, penalties := { p with winner := some m.homeTeam } }
  else if homeScore < awayScore then
    { m with winner := some m.awayTeam, penalties := { p with winner := some m.awayTeam } }
  else
    { m with penalties := p }

/-! ### Serialization -/

/-- `Match.serialize` (match.js:234-255): field-for-field copy into a
plain record (dates and the unused `stats` record omitted from the
model). -/
def serializeMatch (m : Match) : Match :=
  { id := m.id, homeTeam := m.homeTeam, awayTeam := m.awayTeam,
    homeScore := m.homeScore, awayScore := m.awayScore, played := m.played,
    matchday := m.matchday, round := m.round, roundIndex := m.roundIndex,
    groupId := m.groupId, venue := m.venue, winner := m.winner,
    extraTime := m.extraTime, penalties := m.penalties }

/-- JS `config.x || null` on a nullable number: `0` is falsy and
collapses to `null`. -/
def falsyIntToNull (v : Option Int) : Option Int :=
  match v with
  | some n => if n = 0 then none else some n
  | none => none

/-- JS `config.x || null` on a nullable string: `""` is falsy and
collapses to `null`. -/
def falsyStrToNull (v : Option String) : Option String :=
  match v with
  | some s => if s = "" then none else some s
  | none => none

/-- `Match.deserialize` = `new Match(config)` (match.js:18-67,263-265);
`fresh` stands for the impure `_generateId()` used when `config.id` is
falsy.  `homeScore`/`awayScore` use an explicit `!== undefined` check
and survive; `matchday`, `round`, `roundIndex` and `group` go through
`config.x || null` and lose falsy values. -/
def deserializeMatch (fresh : String) (config : Match) : Match :=
  { id := if config.id = "" then fresh else config.id,
    homeTeam := config.homeTeam, awayTeam := config.awayTeam,
    homeScore := config.homeScore, awayScore := config.awayScore,
    played := config.played,
    matchday := falsyIntToNull config.matchday,
    round := falsyStrToNull config.round,
    roundIndex := falsyIntToNull config.roundIndex,
    groupId := falsyStrToNull config.groupId,
    venue := config.venue, winner := config.winner,
    extraTime := config.extraTime, penalties := config.penalties }

/-! ### Knockout bracket generation (knockoutController.js) -/

/-- `new Match({id, homeTeam, awayTeam, round, roundIndex, date})` as
used by the knockout generators; the constructor's `|| null` defaults
apply to `round` and `roundIndex`. -/
def knockoutMatch (id : String) (home away : Team) (round : String) (roundIndex : Int) : Match :=
  { id := id, homeTeam := home, awayTeam := away, homeScore := none,
    awayScore := none, played := false, matchday := none,
    round := if round = "" then none else some round,
    roundIndex := if roundIndex = 0 then none else some roundIndex,
    groupId := none, venue := "", winner := none,
    extraTime := defaultExtraTime, penalties := defaultPenalties }

/-- The TBD placeholder team used in empty knockout rounds
(knockoutController.js:311-333). -/
def tbdTeam : Team := { id := none, name := "TBD" }

/-- `generateEmptyRound` (knockoutController.js:327-340). -/
def generateEmptyRound (count : Nat) (roundName : String) (roundIndex : Int) : List Match :=
  (List.range count).map (fun i =>
    knockoutMatch ((roundName.toLower.replace " " "_") ++ "_" ++ toString i)
      tbdTeam tbdTeam roundName roundIndex)

/-- `generateQuarterfinals` of KnockoutController
(knockoutController.js:200-263): pairings switch on `winners.length`;
pairs with a missing side are skipped, keeping the pairing index in the
match id. -/
def kcGenerateQuarterfinals (winners runnersUp bestThirds : List QTeam) : List Match :=
  if winners.length > 0 ∨ runnersUp.length > 0 ∨ bestThirds.length > 0 then
    let pairings : List (Option QTeam × Option QTeam) :=
      match winners.length with
      | 2 => [(winners[0]?, runnersUp[1]?), (winners[1]?, runnersUp[0]?)]
      | 3 => [(winners[0]?, bestThirds[0]?), (winners[1]?, runnersUp[2]?),
              (winners[2]?, runnersUp[1]?), (runnersUp[0]?, bestThirds[1]?)]
      | 4 => [(winners[0]?, runnersUp[3]?), (winners[1]?, runnersUp[2]?),
              (winners[2]?, runnersUp[1]?), (winners[3]?, runnersUp[0]?)]
      | _ =>
        let allTeams := winners ++ runnersUp ++ bestThirds
        (List.range 4).filterMap (fun k =>
          match allTeams[2 * k]?, allTeams[2 * k + 1]? with
          | some x, some y => some (some x, some y)
          | _, _ => none)
    pairings.enum.filterMap (fun p =>
      match p.2 with
      | (some home, some away) =>
        some (knockoutMatch ("qf_" ++ toString p.1) home.team away.team "Quarterfinals" 1)
      | _ => none)
  else generateEmptyRound 4 "Quarterfinals" 1

/-- A match as built by the legacy `Helpers.generateQuarterfinals`
(helpers.js:542-586): a plain object with a `match` number and no
`roundIndex`. -/
structure HMatch where
  id : String
  round : String
  matchNumber : Nat
  homeTeam : Team
  awayTeam : Team
  homeScore : Option Int
  awayScore : Option Int
  played : Bool
  winner : Option Team
  deriving DecidableEq, Repr

/-- `Helpers.generateQuarterfinals` (helpers.js:542-586): concatenates
all qualifiers and pairs them sequentially (`allTeams[2i]` vs
`allTeams[2i+1]`). -/
def generateQuarterfinals (winners runnersUp bestThirds : List QTeam) : List HMatch :=
  if winners.length > 0 ∨ runnersUp.length > 0 ∨ bestThirds.length > 0 then
    let allTeams := winners ++ runnersUp ++ bestThirds
    (List.range 4).filterMap (fun i =>
      match allTeams[i * 2]?, allTeams[i * 2 + 1]? with
      | some t1, some t2 =>
        some { id := "qf_" ++ toString i, round := "Quarterfinals", matchNumber := i + 1,
               homeTeam := t1.team, awayTeam := t2.team, homeScore := none,
               awayScore := none, played := false, winner := none }
      | _, _ => none)
  else
    (List.range 4).map (fun i =>
      { id := "qf_" ++ toString i, round := "Quarterfinals", matchNumber := i + 1,
        homeTeam := { id := some ("qf_home_" ++ toString i), name := "TBD" },
        awayTeam := { id := some ("qf_away_" ++ toString i), name := "TBD" },
        homeScore := none, awayScore := none, played := false, winner := none })

/-! ### Knockout match updates and progression -/

/-- The inline extra-time block of KnockoutController
`updateMatchResult` (knockoutController.js:428-445), applied to the
match after `updateResult`. -/
def kcExtraTimeStep (m1 : Match) (extraTimeScores : Option (Int × Int)) : Match :=
  match extraTimeScores with
  | none => m1
  | some (eh, ea) =>
    let et := { m1 with extraTime := { played := true, homeScore := some eh, awayScore := some ea } }
    let totalHomeScore := et.homeScore.getD 0 + eh
    let totalAwayScore := et.awayScore.getD 0 + ea
    if totalHomeScore > totalAwayScore then { et with winner := some et.homeTeam }
    else if totalAwayScore > totalHomeScore then { et with winner := some et.awayTeam }
    else { et with winner := none }

/-- The inline penalties block of KnockoutController
`updateMatchResult` (knockoutController.js:447-460). -/
def kcPenaltyStep (m2 : Match) (penaltyScores : Option (Int × Int)) : Match :=
  match penaltyScores with
  | none => m2
  | some (ph, pa) =>
    let pnRec := { m2.penalties with played := true, homeScore := some ph, awayScore := some pa }
    let pn := { m2 with penalties := pnRec }
    if ph > pa then
      { pn with winner := some pn.homeTeam,
                penalties := { pn.penalties with winner := some pn.homeTeam } }
    else if ph < pa then
      { pn with winner := some pn.awayTeam,
                penalties := { pn.penalties with winner := some pn.awayTeam } }
    else pn

/-- The "ensure there's a winner" fallback of KnockoutController
`updateMatchResult` (knockoutController.js:462-469); note it has no
branch for equal regulation scores. -/
def kcEnsureWinner (m3 : Match) (homeScore awayScore : Int) : Match :=
  if m3.winner = none then
    if homeScore > awayScore then { m3 with winner := some m3.homeTeam }
    else if awayScore > homeScore then { m3 with winner := some m3.awayTeam }
    else m3
  else m3

/-- The core of KnockoutController `updateMatchResult`
(knockoutController.js:424-469): `Match.updateResult`, then the inline
extra-time block, then the inline penalties block, then the
"ensure there's a winner" fallback on the regulation scores. -/
def kcApplyResult (m : Match) (homeScore awayScore : Int)
    (extraTimeScores penaltyScores : Option (Int × Int)) : Match :=
  kcEnsureWinner
    (kcPenaltyStep (kcExtraTimeStep (updateResult m homeScore awayScore) extraTimeScores)
      penaltyScores)
    homeScore awayScore

/-- The match-locating loop shared by KnockoutController
`updateMatchResult` (knockoutController.js:409-418) and
`Tournament._updateKnockoutProgression` (tournament.js:214-226): first
round containing the id, with the match index inside it. -/
def findMatchInRounds : List KRound → String → Option (Nat × Nat × Match)
  | [], _ => none
  | r :: rs, matchId =>
    match r.«matches».findIdx? (fun m => m.id == matchId) with
    | some j =>
      match r.«matches»[j]? with
      | some m => some (0, j, m)
      | none => none
    | none =>
      (findMatchInRounds rs matchId).map (fun t => (t.1 + 1, t.2.1, t.2.2))

/-- `progressWinnerToNextRound` (knockoutController.js:493-516): the
winner of match `matchIndex` of round `roundIndex` goes to match
`⌊matchIndex / 2⌋` of the next round, home slot iff `matchIndex` is
even; no-op for the last round or when the winner is unresolved. -/
def progressWinnerToNextRound (m : Match) (roundIndex matchIndex : Nat)
    (rounds : List KRound) : List KRound :=
  match m.winner with
  | none => rounds
  | some w =>
    if rounds.length - 1 ≤ roundIndex then rounds
    else
      let nextRoundIndex := roundIndex + 1
      let nextMatchIndex := matchIndex / 2
      match rounds[nextRoundIndex]? with
      | none => rounds
      | some nextRound =>
        if h : nextMatchIndex < nextRound.«matches».length then
          let nextMatch := nextRound.«matches».get ⟨nextMatchIndex, h⟩
          let updated :=
            if matchIndex % 2 = 0 then { nextMatch with homeTeam := w }
            else { nextMatch with awayTeam := w }
          rounds.set nextRoundIndex
            { nextRound with «matches» := nextRound.«matches».set nextMatchIndex updated }
        else rounds

/-- `isTournamentComplete` (knockoutController.js:586-593): every match
of the last round is played. -/
def isTournamentComplete (rounds : List KRound) : Bool :=
  match rounds.getLast? with
  | none => false
  | some finalRound => finalRound.«matches».all (fun m => m.played)

/-- `getTournamentWinner` (knockoutController.js:599-611): the winner
of the first match of the last round once the tournament is complete. -/
def getTournamentWinner (rounds : List KRound) : Option Team :=
  if !(isTournamentComplete rounds) || rounds.length == 0 then none
  else
    match rounds.getLast? with
    | none => none
    | some finalRound =>
      match finalRound.«matches» with
      | [] => none
      | finalMatch :: _ => finalMatch.winner

/-- The mutable state touched by a knockout result submission: the
controller's `_rounds` plus the tournament's `currentStage`/`status`. -/
structure AppState where
  rounds : List KRound
  stage : String
  status : String
  deriving DecidableEq, Repr

/-- `_rounds[roundIndex].matches[matchIndex] = m` (in-place slot write). -/
def setMatchAt (rounds : List KRound) (roundIndex matchIndex : Nat) (m : Match) : List KRound :=
  modifyAt rounds roundIndex (fun r => { r with «matches» := r.«matches».set matchIndex m })

/-- KnockoutController `updateMatchResult` (knockoutController.js:
402-485) together with the completion notification it triggers
(`notifyTournamentCompleted`, tournamentController.js:391-406, which
sets `status = 'completed'` and stage `'complete'`). -/
def kcUpdateMatchResult (st : AppState) (matchId : String) (homeScore awayScore : Int)
    (extraTimeScores penaltyScores : Option (Int × Int)) : Bool × AppState :=
  match findMatchInRounds st.rounds matchId with
  | none => (false, st)
  | some (roundIndex, matchIndex, m) =>
    let m1 := kcApplyResult m homeScore awayScore extraTimeScores penaltyScores
    let rounds1 := setMatchAt st.rounds roundIndex matchIndex m1
    let rounds2 := progressWinnerToNextRound m1 roundIndex matchIndex rounds1
    if isTournamentComplete rounds2 then
      (true, { rounds := rounds2, stage := "complete", status := "completed" })
    else
      (true, { st with rounds := rounds2 })

/-- `KnockoutView._saveKnockoutMatchResult` (knockoutView.js:560-643):
the submission pipeline for a knockout result.  Parsed text inputs are
`Option Int` (`none` = `isNaN`); each failed validation alerts and
returns without touching any state.  Returns the new state and the
success flag. -/
def saveKnockoutMatchResult (st : AppState) (matchId : String)
    (homeScoreInput awayScoreInput : Option Int)
    (extraTimeInput penaltiesInput : Option (Option Int × Option Int)) :
    AppState × Bool :=
  match homeScoreInput, awayScoreInput with
  | some homeScore, some awayScore =>
    if homeScore < 0 ∨ awayScore < 0 then (st, false)
    else
      let etStep : Option (Option (Int × Int)) :=
        match extraTimeInput with
        | none => some none
        | some (ehInput, eaInput) =>
          match ehInput, eaInput with
          | some eh, some ea => if eh < 0 ∨ ea < 0 then none else some (some (eh, ea))
          | _, _ => none
      match etStep with
      | none => (st, false)
      | some extraTimeData =>
        let penStep : Option (Option (Int × Int)) :=
          match penaltiesInput with
          | none => some none
          | some (phInput, paInput) =>
            match phInput, paInput with
            | some ph, some pa =>
              if ph < 0 ∨ pa < 0 then none
              else if ph = pa then none
              else some (some (ph, pa))
            | _, _ => none
        match penStep with
        | none => (st, false)
        | some penaltiesData =>
          let result := kcUpdateMatchResult st matchId homeScore awayScore extraTimeData penaltiesData
          (result.2, result.1)
  | _, _ => (st, false)

/-- `Tournament._updateKnockoutProgression` (tournament.js:208-265):
same parity rule as the controller; when the decided match is in the
last round it sets `status = 'completed'` instead of propagating. -/
def tournamentUpdateKnockoutProgression (knockout : List KRound) (status : String)
    (m : Match) : List KRound × String :=
  match m.winner with
  | none => (knockout, status)
  | some w =>
    match findMatchInRounds knockout m.id with
    | none => (knockout, status)
    | some (roundIndex, matchPosition, _) =>
      if roundIndex + 1 < knockout.length then
        match knockout[roundIndex + 1]? with
        | none => (knockout, status)
        | some nextRound =>
          let nextMatchIndex := matchPosition / 2
          if h : nextMatchIndex < nextRound.«matches».length then
            let nextMatch := nextRound.«matches».get ⟨nextMatchIndex, h⟩
            let updated :=
              if matchPosition % 2 = 0 then { nextMatch with homeTeam := w }
              else { nextMatch with awayTeam := w }
            (knockout.set (roundIndex + 1)
              { nextRound with «matches» := nextRound.«matches».set nextMatchIndex updated },
             status)
          else (knockout, status)
      else (knockout, "completed")

/-! ### Group match generation -/

/-- The fixed three-matchday pairing pattern, a literal shared by
`Match.createGroupMatches` (match.js:281-297) and
`Helpers.generateMatchSchedule` (helpers.js:136-152): indices are
0-based team positions, `(home, away)`. -/
def matchPattern : List (List (Nat × Nat)) :=
  [[(0, 3), (1, 2)], [(0, 1), (2, 3)], [(2, 0), (3, 1)]]

/-- Stand-in for JS out-of-bounds array access; unreachable for the
4-team lists the generators require. -/
def dummyTeam : Team := { id := none, name := "" }

/-- `new Match({homeTeam, awayTeam, matchday, group, date})` as built
by `createGroupMatches` (match.js:319-325), with the constructor's
defaults applied. -/
def newGroupMatch (id : String) (home away : Team) (matchday : Int) (groupId : String) : Match :=
  { id := id, homeTeam := home, awayTeam := away, homeScore := none,
    awayScore := none, played := false,
    matchday := if matchday = 0 then none else some matchday,
    round := none, roundIndex := none,
    groupId := if groupId = "" then none else some groupId,
    venue := "", winner := none,
    extraTime := defaultExtraTime, penalties := defaultPenalties }

/-- `Match.createGroupMatches` (match.js:274-330): requires exactly 4
teams, walks `matchPattern` and emits one `Match` per pair; `fresh k`
stands for the impure `_generateId()` of the `k`-th created match. -/
def createGroupMatches (fresh : Nat → String) (teams : List Team) (groupId : String) : List Match :=
  if teams.length ≠ 4 then []
  else
    (((matchPattern.enum.map (fun md => md.2.map (fun p => ((md.1 : Int) + 1, p)))).flatten).enum).map
      (fun e => newGroupMatch (fresh e.1) (teams.getD e.2.2.1 dummyTeam)
        (teams.getD e.2.2.2 dummyTeam) e.2.1 groupId)

/-- A plain scheduled-match object as built by
`Helpers.generateMatchSchedule` (helpers.js:162-171). -/
structure SchedMatch where
  id : String
  matchday : Nat
  homeTeam : Team
  awayTeam : Team
  homeScore : Option Int
  awayScore : Option Int
  played : Bool
  deriving DecidableEq, Repr

/-- One matchday group of `Helpers.generateMatchSchedule`
(helpers.js:174-177). -/
structure MatchdaySched where
  matchday : Nat
  «matches» : List SchedMatch
  deriving DecidableEq, Repr

/-- JS template interpolation of a nullable id (`null` prints as
"null"). -/
def optIdStr : Option String → String
  | some s => s
  | none => "null"

/-- `Helpers.generateMatchId` (helpers.js:190-192); `now` stands for
the impure `Date.now()` suffix. -/
def generateMatchId (homeTeamId awayTeamId : Option String) (matchday : Nat) (now : String) : String :=
  "match_" ++ optIdStr homeTeamId ++ "_" ++ optIdStr awayTeamId ++ "_" ++
    toString matchday ++ "_" ++ now

/-- `Helpers.generateMatchSchedule` (helpers.js:128-181): requires
exactly 4 teams; emits the pattern grouped by matchday. -/
def generateMatchSchedule (now : String) (teams : List Team) : List MatchdaySched :=
  if teams.length ≠ 4 then []
  else
    matchPattern.enum.map (fun md =>
      { matchday := md.1 + 1,
        «matches» := md.2.map (fun p =>
          { id := generateMatchId (teams.getD p.1 dummyTeam).id (teams.getD p.2 dummyTeam).id
              (md.1 + 1) now,
            matchday := md.1 + 1,
            homeTeam := teams.getD p.1 dummyTeam, awayTeam := teams.getD p.2 dummyTeam,
            homeScore := none, awayScore := none, played := false }) })

/-! ### Concrete fixtures used by counterexamples and witnesses -/

/-- Concrete team. -/
def teamAlpha : Team := ⟨some "a", "Alpha"⟩

/-- Concrete team. -/
def teamBeta : Team := ⟨some "b", "Beta"⟩

/-- Concrete team. -/
def teamCeres : Team := ⟨some "c", "Ceres"⟩

/-- Concrete team. -/
def teamDelta : Team := ⟨some "d", "Delta"⟩

/-- An unplayed group-stage match between two teams. -/
def baseGroupMatch (id : String) (home away : Team) : Match :=
  { id := id, homeTeam := home, awayTeam := away, homeScore := none,
    awayScore := none, played := false, matchday := some 1, round := none,
    roundIndex := none, groupId := some "g", venue := "", winner := none,
    extraTime := defaultExtraTime, penalties := defaultPenalties }

/-- Match list where Alpha and Beta end level on points, goal
difference and goals-for, with Alpha winning the head-to-head. -/
def c1Matches : List Match :=
  [updateResult (baseGroupMatch "m1" teamAlpha teamBeta) 1 0,
   updateResult (baseGroupMatch "m2" teamBeta teamCeres) 1 0,
   updateResult (baseGroupMatch "m3" teamDelta teamAlpha) 1 0]

/-- The four teams of the `c1Matches` scenario. -/
def c1Teams : List Team := [teamAlpha, teamBeta, teamCeres, teamDelta]

/-- An unplayed knockout match between two teams. -/
def knockoutMatchBetween (id : String) (home away : Team) (round : String) (roundIndex : Int) : Match :=
  knockoutMatch id home away round roundIndex

/-- A two-round knockout bracket (semifinals then final) with no
results yet. -/
def semisState : AppState :=
  { rounds :=
      [⟨"Semifinals", [knockoutMatch "sf_0" teamAlpha teamBeta "Semifinals" 2,
                       knockoutMatch "sf_1" teamCeres teamDelta "Semifinals" 2]⟩,
       ⟨"Final", [knockoutMatch "final_0" tbdTeam tbdTeam "Final" 3]⟩],
    stage := "knockout", status := "active" }

/-- A bracket whose only round is the final, both semifinal winners
already slotted in. -/
def finalOnlyState : AppState :=
  { rounds := [⟨"Final", [knockoutMatch "final_0" teamAlpha teamCeres "Final" 3]⟩],
    stage := "knockout", status := "active" }

/-- Concrete qualified teams for bracket-generation claims. -/
def qtW0 : QTeam := ⟨⟨some "w0", "W0"⟩, "A"⟩

/-- Concrete qualified team. -/
def qtW1 : QTeam := ⟨⟨some "w1", "W1"⟩, "B"⟩

/-- Concrete qualified team. -/
def qtW2 : QTeam := ⟨⟨some "w2", "W2"⟩, "C"⟩

/-- Concrete qualified team. -/
def qtW3 : QTeam := ⟨⟨some "w3", "W3"⟩, "D"⟩

/-- Concrete qualified team. -/
def qtR0 : QTeam := ⟨⟨some "r0", "R0"⟩, "A"⟩

/-- Concrete qualified team. -/
def qtR1 : QTeam := ⟨⟨some "r1", "R1"⟩, "B"⟩

/-- Concrete qualified team. -/
def qtR2 : QTeam := ⟨⟨some "r2", "R2"⟩, "C"⟩

/-- Concrete qualified team. -/
def qtR3 : QTeam := ⟨⟨some "r3", "R3"⟩, "D"⟩

/-- A Round-of-16 match record carrying `roundIndex = 0`, the value
`generateRoundOf16` (knockoutController.js:179-187) passes to the
`Match` constructor for every Round-of-16 match. -/
def r16MatchWithIndexZero : Match :=
  { knockoutMatch "r16_0" teamAlpha teamBeta "Round of 16" 1 with roundIndex := some 0 }

/-! ### Derived views used by the standings proofs -/

/-- Combined effect of one processed match on the home team's row
(derived from the statement chain of `processMatch`; proved equal to
it pointwise in `processMatch_getElem?`). -/
def homeEff (hs gsA : Int) (r : Row) : Row :=
  if hs > gsA then
    { r with played := r.played + 1, goalsFor := r.goalsFor + hs,
             goalsAgainst := r.goalsAgainst + gsA, won := r.won + 1, points := r.points + 3 }
  else if hs < gsA then
    { r with played := r.played + 1, goalsFor := r.goalsFor + hs,
             goalsAgainst := r.goalsAgainst + gsA, lost := r.lost + 1 }
  else
    { r with played := r.played + 1, goalsFor := r.goalsFor + hs,
             goalsAgainst := r.goalsAgainst + gsA, drawn := r.drawn + 1, points := r.points + 1 }

/-- Combined effect of one processed match on the away team's row. -/
def awayEff (hs gsA : Int) (r : Row) : Row :=
  if hs > gsA then
    { r with played := r.played + 1, goalsFor := r.goalsFor + gsA,
             goalsAgainst := r.goalsAgainst + hs, lost := r.lost + 1 }
  else if hs < gsA then
    { r with played := r.played + 1, goalsFor := r.goalsFor + gsA,
             goalsAgainst := r.goalsAgainst + hs, won := r.won + 1, points := r.points + 3 }
  else
    { r with played := r.played + 1, goalsFor := r.goalsFor + gsA,
             goalsAgainst := r.goalsAgainst + hs, drawn := r.drawn + 1, points := r.points + 1 }

/-- The accounting invariant of a standings row. -/
def accRow (r : Row) : Prop :=
  r.played = r.won + r.drawn + r.lost ∧ r.points = 3 * r.won + r.drawn

/-- The observable identity of a standings row. -/
def rowKey (r : Row) : Option String × String := (r.id, r.name)

/-- The observable identity of a team. -/
def teamKey (t : Team) : Option String × String := (t.id, t.name)

/-! ### Generic lemmas about the list machinery -/

theorem getElem?_modifyAt (l : List α) (i : Nat) (f : α → α) (k : Nat) :
    (modifyAt l i f)[k]? = if k = i then (l[k]?).map f else l[k]? := by
  unfold modifyAt
  rcases h : l.get? i with _ | a <;> rw [List.get?_eq_getElem?] at h
  · by_cases hk : k = i
    · subst hk
      simp [h]
    · simp [hk]
  · by_cases hk : k = i
    · subst hk
      have hlen : k < l.length := (List.getElem?_eq_some.mp h).1
      simp [List.getElem?_set_self, hlen, h]
    · simp [List.getElem?_set_ne (fun he => hk he.symm), hk]

theorem length_modifyAt (l : List α) (i : Nat) (f : α → α) :
    (modifyAt l i f).length = l.length := by
  unfold modifyAt
  rcases l.get? i with _ | a <;> simp

theorem perm_insertSorted (le : α → α → Bool) (x : α) (l : List α) :
    (insertSorted le x l).Perm (x :: l) := by
  induction l with
  | nil => exact List.Perm.refl _
  | cons y ys ih =>
    by_cases h : le x y = true
    · simp [insertSorted, h]
    · simp only [insertSorted, h, if_false]
      exact ((ih.cons y).trans (List.Perm.swap x y ys))

theorem perm_sortBy (le : α → α → Bool) (l : List α) :
    (sortBy le l).Perm l := by
  induction l with
  | nil => exact List.Perm.refl _
  | cons x xs ih =>
    exact (perm_insertSorted le x (sortBy le xs)).trans (ih.cons x)

theorem isSortedBy_insertSorted (le : α → α → Bool)
    (total : ∀ a b, le a b = true ∨ le b a = true) (x : α) (l : List α)
    (hl : isSortedBy le l = true) :
    isSortedBy le (insertSorted le x l) = true := by
  induction l with
  | nil => rfl
  | cons y ys ih =>
    by_cases h : le x y = true
    · simpa [insertSorted, h, isSortedBy] using hl
    · have hyx : le y x = true := (total x y).resolve_left h
      simp only [insertSorted, h, if_false]
      cases ys with
      | nil => simp [isSortedBy, insertSorted, hyx]
      | cons z zs =>
        have hl' : isSortedBy le (z :: zs) = true := by
          simpa [isSortedBy] using (And.right (by simpa [isSortedBy] using hl))
        have hyz : le y z = true := by
          simpa [isSortedBy] using (And.left (by simpa [isSortedBy] using hl))
        have := ih hl'
        by_cases hxz : le x z = true
        · simp [insertSorted, hxz, isSortedBy, hyx, hl']
        · simp only [insertSorted, hxz, if_false] at this ⊢
          simp [isSortedBy, hyz]
          exact this

theorem isSortedBy_sortBy (le : α → α → Bool)
    (total : ∀ a b, le a b = true ∨ le b a = true) (l : List α) :
    isSortedBy le (sortBy le l) = true := by
  induction l with
  | nil => rfl
  | cons x xs ih => exact isSortedBy_insertSorted le total x (sortBy le xs) ih

theorem mem_of_getElem?_eq_some {l : List α} {i : Nat} {a : α} (h : l[i]? = some a) :
    a ∈ l := by
  obtain ⟨hlt, he⟩ := List.getElem?_eq_some.mp h
  exact he ▸ List.getElem_mem hlt

theorem findIdx?_eq_none_of_all {l : List α} {p : α → Bool}
    (h : ∀ a ∈ l, p a = false) : l.findIdx? p = none := by
  induction l with
  | nil => rfl
  | cons x xs ih =>
    have hx := h x (List.mem_cons_self x xs)
    have hxs := ih (fun a ha => h a (List.mem_cons_of_mem x ha))
    simp [List.findIdx?_cons, hx, hxs]

theorem find?_congr {p q : α → Bool} (h : ∀ a, p a = q a) (l : List α) :
    l.find? p = l.find? q := by
  induction l with
  | nil => rfl
  | cons x xs ih => simp only [List.find?, h x, ih]

/-! ### Standings accumulation lemmas -/

theorem processMatch_not_played (st : List Row) (m : Match)
    (h : ¬ (m.played = true ∧ m.homeScore ≠ none ∧ m.awayScore ≠ none)) :
    processMatch st m = st := by
  unfold processMatch
  rw [if_neg h]

theorem processMatch_home_absent (st : List Row) (m : Match)
    (hh : st.findIdx? (fun r => r.id == m.homeTeam.id) = none) :
    processMatch st m = st := by
  by_cases hcond : (m.played = true ∧ m.homeScore ≠ none ∧ m.awayScore ≠ none)
  · unfold processMatch
    rw [if_pos hcond, hh]
  · exact processMatch_not_played st m hcond

theorem processMatch_away_absent (st : List Row) (m : Match)
    (ha : st.findIdx? (fun r => r.id == m.awayTeam.id) = none) :
    processMatch st m = st := by
  by_cases hcond : (m.played = true ∧ m.homeScore ≠ none ∧ m.awayScore ≠ none)
  · rcases hh : st.findIdx? (fun r => r.id == m.homeTeam.id) with _ | hi
    · exact processMatch_home_absent st m hh
    · unfold processMatch
      rw [if_pos hcond, hh, ha]
  · exact processMatch_not_played st m hcond

theorem processMatch_getElem? (st : List Row) (m : Match)
    (hcond : m.played = true ∧ m.homeScore ≠ none ∧ m.awayScore ≠ none)
    (hi ai : Nat)
    (hh : st.findIdx? (fun r => r.id == m.homeTeam.id) = some hi)
    (ha : st.findIdx? (fun r => r.id == m.awayTeam.id) = some ai)
    (k : Nat) :
    (processMatch st m)[k]? = (st[k]?).map
      (fun r => (if k = ai then awayEff (m.homeScore.getD 0) (m.awayScore.getD 0) else id)
                ((if k = hi then homeEff (m.homeScore.getD 0) (m.awayScore.getD 0) else id) r)) := by
  unfold processMatch
  rw [if_pos hcond, hh, ha]
  dsimp only
  by_cases h1 : m.homeScore.getD 0 > m.awayScore.getD 0
  case pos =>
    rw [if_pos h1]
    simp only [getElem?_modifyAt]
    by_cases heq : hi = ai
    · subst heq
      by_cases hk : k = hi <;> rcases hx : st[k]? with _ | r <;>
        simp [hk, hx, homeEff, awayEff, h1]
    · by_cases hk1 : k = hi
      · have hk2 : ¬ k = ai := fun hcontra => heq (hk1.symm.trans hcontra)
        rcases hx : st[k]? with _ | r <;>
          simp [hk1, hk2, heq, hx, homeEff, awayEff, h1]
      · by_cases hk2 : k = ai
        · have hne : ¬ ai = hi := fun hcontra => heq hcontra.symm
          rcases hx : st[k]? with _ | r <;>
            simp [hk1, hk2, hne, hx, homeEff, awayEff, h1]
        · rcases hx : st[k]? with _ | r <;> simp [hk1, hk2, hx]
  case neg =>
    rw [if_neg h1]
    by_cases h2 : m.homeScore.getD 0 < m.awayScore.getD 0
    case pos =>
      rw [if_pos h2]
      simp only [getElem?_modifyAt]
      by_cases heq : hi = ai
      · subst heq
        by_cases hk : k = hi <;> rcases hx : st[k]? with _ | r <;>
          simp [hk, hx, homeEff, awayEff, h1, h2]
      · by_cases hk1 : k = hi
        · have hk2 : ¬ k = ai := fun hcontra => heq (hk1.symm.trans hcontra)
          rcases hx : st[k]? with _ | r <;>
            simp [hk1, hk2, heq, hx, homeEff, awayEff, h1, h2]
        · by_cases hk2 : k = ai
          · have hne : ¬ ai = hi := fun hcontra => heq hcontra.symm
            rcases hx : st[k]? with _ | r <;>
              simp [hk1, hk2, hne, hx, homeEff, awayEff, h1, h2]
          · rcases hx : st[k]? with _ | r <;> simp [hk1, hk2, hx]
    case neg =>
      rw [if_neg h2]
      simp only [getElem?_modifyAt]
      by_cases heq : hi = ai
      · subst heq
        by_cases hk : k = hi <;> rcases hx : st[k]? with _ | r <;>
          simp [hk, hx, homeEff, awayEff, h1, h2]
      · by_cases hk1 : k = hi
        · have hk2 : ¬ k = ai := fun hcontra => heq (hk1.symm.trans hcontra)
          rcases hx : st[k]? with _ | r <;>
            simp [hk1, hk2, heq, hx, homeEff, awayEff, h1, h2]
        · by_cases hk2 : k = ai
          · have hne : ¬ ai = hi := fun hcontra => heq hcontra.symm
            rcases hx : st[k]? with _ | r <;>
              simp [hk1, hk2, hne, hx, homeEff, awayEff, h1, h2]
          · rcases hx : st[k]? with _ | r <;> simp [hk1, hk2, hx]

theorem length_processMatch (st : List Row) (m : Match) :
    (processMatch st m).length = st.length := by
  by_cases hcond : (m.played = true ∧ m.homeScore ≠ none ∧ m.awayScore ≠ none)
  · rcases hh : st.findIdx? (fun r => r.id == m.homeTeam.id) with _ | hi
    · rw [processMatch_home_absent st m hh]
    · rcases ha : st.findIdx? (fun r => r.id == m.awayTeam.id) with _ | ai
      · rw [processMatch_away_absent st m ha]
      · unfold processMatch
        rw [if_pos hcond, hh, ha]
        dsimp only
        by_cases h1 : m.homeScore.getD 0 > m.awayScore.getD 0
        · rw [if_pos h1]
          simp [length_modifyAt]
        · rw [if_neg h1]
          by_cases h2 : m.homeScore.getD 0 < m.awayScore.getD 0
          · rw [if_pos h2]
            simp [length_modifyAt]
          · rw [if_neg h2]
            simp [length_modifyAt]
  · rw [processMatch_not_played st m hcond]

theorem accRow_homeEff (hs gsA : Int) (r : Row) (h : accRow r) :
    accRow (homeEff hs gsA r) := by
  obtain ⟨h1, h2⟩ := h
  unfold homeEff accRow
  split_ifs <;> constructor <;> simp <;> omega

theorem accRow_awayEff (hs gsA : Int) (r : Row) (h : accRow r) :
    accRow (awayEff hs gsA r) := by
  obtain ⟨h1, h2⟩ := h
  unfold awayEff accRow
  split_ifs <;> constructor <;> simp <;> omega

theorem homeEff_id (hs gsA : Int) (r : Row) : (homeEff hs gsA r).id = r.id := by
  unfold homeEff
  split_ifs <;> rfl

theorem homeEff_name (hs gsA : Int) (r : Row) : (homeEff hs gsA r).name = r.name := by
  unfold homeEff
  split_ifs <;> rfl

theorem awayEff_id (hs gsA : Int) (r : Row) : (awayEff hs gsA r).id = r.id := by
  unfold awayEff
  split_ifs <;> rfl

theorem awayEff_name (hs gsA : Int) (r : Row) : (awayEff hs gsA r).name = r.name := by
  unfold awayEff
  split_ifs <;> rfl

theorem accRow_processMatch (st : List Row) (m : Match) (hst : ∀ r ∈ st, accRow r) :
    ∀ r ∈ processMatch st m, accRow r := by
  by_cases hcond : (m.played = true ∧ m.homeScore ≠ none ∧ m.awayScore ≠ none)
  · rcases hh : st.findIdx? (fun r => r.id == m.homeTeam.id) with _ | hi
    · rw [processMatch_home_absent st m hh]; exact hst
    · rcases ha : st.findIdx? (fun r => r.id == m.awayTeam.id) with _ | ai
      · rw [processMatch_away_absent st m ha]; exact hst
      · intro r hr
        obtain ⟨k, hk⟩ := List.mem_iff_getElem?.mp hr
        rw [processMatch_getElem? st m hcond hi ai hh ha k] at hk
        rcases hx : st[k]? with _ | r0
        · rw [hx] at hk; simp at hk
        · rw [hx] at hk
          simp only [Option.map_some'] at hk
          have hr0 : accRow r0 := hst r0 (mem_of_getElem?_eq_some hx)
          have hmid : accRow ((if k = hi then homeEff (m.homeScore.getD 0) (m.awayScore.getD 0) else id) r0) := by
            by_cases hk1 : k = hi
            · rw [if_pos hk1]
              exact accRow_homeEff _ _ _ hr0
            · rw [if_neg hk1]
              exact hr0
          have hout : accRow ((if k = ai then awayEff (m.homeScore.getD 0) (m.awayScore.getD 0) else id)
              ((if k = hi then homeEff (m.homeScore.getD 0) (m.awayScore.getD 0) else id) r0)) := by
            by_cases hk2 : k = ai
            · rw [if_pos hk2]
              exact accRow_awayEff _ _ _ hmid
            · rw [if_neg hk2]
              exact hmid
          rw [Option.some_inj] at hk
          exact hk ▸ hout
  · rw [processMatch_not_played st m hcond]; exact hst

theorem rowKey_processMatch (st : List Row) (m : Match) (k : Nat) :
    ((processMatch st m)[k]?).map rowKey = (st[k]?).map rowKey := by
  by_cases hcond : (m.played = true ∧ m.homeScore ≠ none ∧ m.awayScore ≠ none)
  · rcases hh : st.findIdx? (fun r => r.id == m.homeTeam.id) with _ | hi
    · rw [processMatch_home_absent st m hh]
    · rcases ha : st.findIdx? (fun r => r.id == m.awayTeam.id) with _ | ai
      · rw [processMatch_away_absent st m ha]
      · rw [processMatch_getElem? st m hcond hi ai hh ha k]
        rcases hx : st[k]? with _ | r0
        · rfl
        · simp only [Option.map_some']
          congr 1
          split_ifs <;> simp [homeEff_id, homeEff_name, awayEff_id, awayEff_name, rowKey]
  · rw [processMatch_not_played st m hcond]

theorem accRow_foldl (mlist : List Match) (st : List Row) (hst : ∀ r ∈ st, accRow r) :
    ∀ r ∈ mlist.foldl processMatch st, accRow r := by
  induction mlist generalizing st with
  | nil => exact hst
  | cons m ms ih => exact ih (processMatch st m) (accRow_processMatch st m hst)

theorem rowKey_foldl (mlist : List Match) (st : List Row) (k : Nat) :
    ((mlist.foldl processMatch st)[k]?).map rowKey = (st[k]?).map rowKey := by
  induction mlist generalizing st with
  | nil => rfl
  | cons m ms ih => exact (ih (processMatch st m)).trans (rowKey_processMatch st m k)

theorem length_foldl_processMatch (mlist : List Match) (st : List Row) :
    (mlist.foldl processMatch st).length = st.length := by
  induction mlist generalizing st with
  | nil => rfl
  | cons m ms ih => exact (ih (processMatch st m)).trans (length_processMatch st m)

theorem map_rowKey_foldl (mlist : List Match) (st : List Row) :
    (mlist.foldl processMatch st).map rowKey = st.map rowKey := by
  apply List.ext_getElem?
  intro k
  simp only [List.getElem?_map]
  exact rowKey_foldl mlist st k

theorem map_rowKey_applyGD (st : List Row) :
    (applyGD st).map rowKey = st.map rowKey := by
  unfold applyGD
  rw [List.map_map]
  rfl

theorem length_applyGD (st : List Row) : (applyGD st).length = st.length := by
  unfold applyGD
  exact List.length_map st _

theorem accRow_applyGD (st : List Row) (hst : ∀ r ∈ st, accRow r) :
    ∀ r ∈ applyGD st, accRow r := by
  intro r hr
  obtain ⟨r0, hr0, he⟩ := List.mem_map.mp hr
  obtain ⟨h1, h2⟩ := hst r0 hr0
  exact he ▸ ⟨h1, h2⟩

theorem gd_applyGD (st : List Row) :
    ∀ r ∈ applyGD st, r.goalDifference = r.goalsFor - r.goalsAgainst := by
  intro r hr
  obtain ⟨r0, _, he⟩ := List.mem_map.mp hr
  exact he ▸ rfl

/-! ### Comparator totality -/

theorem nameCmp_total (a b : String) : nameCmp a b ≤ 0 ∨ nameCmp b a ≤ 0 := by
  unfold nameCmp
  by_cases h1 : strLt a b = true
  · left
    simp [h1]
  · by_cases h2 : strLt b a = true
    · right
      simp [h2]
    · left
      simp [h1, h2]

theorem cmpRows_total (a b : Row) : cmpRows a b ≤ 0 ∨ cmpRows b a ≤ 0 := by
  by_cases hp : b.points = a.points
  · by_cases hg : b.goalDifference = a.goalDifference
    · by_cases hf : b.goalsFor = a.goalsFor
      · simpa [cmpRows, hp, hg, hf] using nameCmp_total a.name b.name
      · simp only [cmpRows, hp, hg]
        simp [hf, Ne.symm hf]
        omega
    · simp only [cmpRows, hp]
      simp [hg, Ne.symm hg]
      omega
  · simp only [cmpRows]
    simp [hp, Ne.symm hp]
    omega

theorem h2h_swap (mlist : List Match)
    (hns : ∀ m ∈ mlist, ¬ m.homeTeam.id = m.awayTeam.id) (aId bId : Option String) :
    getHeadToHeadResult mlist bId aId = - getHeadToHeadResult mlist aId bId := by
  unfold getHeadToHeadResult
  rw [find?_congr (q := fun m =>
      decide ((m.homeTeam.id = aId ∧ m.awayTeam.id = bId) ∨
              (m.homeTeam.id = bId ∧ m.awayTeam.id = aId)) && m.played)
    (fun m => by rw [decide_eq_decide.mpr or_comm]) mlist]
  split
  next heq =>
    simp
  next mm heq =>
    have hmem := List.mem_of_find?_eq_some heq
    have hpred := List.find?_some heq
    have hns' := hns mm hmem
    simp only [Bool.and_eq_true, Bool.or_eq_true, decide_eq_true_eq] at hpred
    obtain ⟨hor, _⟩ := hpred
    rcases hor with ⟨hh1, hh2⟩ | ⟨hh1, hh2⟩
    · have hfalse : ¬ mm.homeTeam.id = bId := fun hcc => hns' (hcc.trans hh2.symm)
      rw [if_pos hh1, if_neg hfalse]
      split_ifs <;> omega
    · have hfalse : ¬ mm.homeTeam.id = aId := fun hcc => hns' (hcc.trans hh2.symm)
      rw [if_neg hfalse, if_pos hh1]
      split_ifs <;> omega

theorem groupCmp_total (mlist : List Match)
    (hns : ∀ m ∈ mlist, ¬ m.homeTeam.id = m.awayTeam.id) (a b : Row) :
    groupCmp mlist a b ≤ 0 ∨ groupCmp mlist b a ≤ 0 := by
  have hswap := h2h_swap mlist hns a.id b.id
  by_cases hp : b.points = a.points
  · by_cases hg : b.goalDifference = a.goalDifference
    · by_cases hf : b.goalsFor = a.goalsFor
      · by_cases hz : getHeadToHeadResult mlist a.id b.id = 0
        · have hz' : getHeadToHeadResult mlist b.id a.id = 0 := by
            rw [hswap, hz]
            simp
          simpa [groupCmp, hp, hg, hf, hz, hz'] using nameCmp_total a.name b.name
        · have hz' : ¬ getHeadToHeadResult mlist b.id a.id = 0 := by
            rw [hswap]
            simpa using hz
          simp only [groupCmp, hp, hg, hf]
          simp [hz, hz', hswap]
          omega
      · simp only [groupCmp, hp, hg]
        simp [hf, Ne.symm hf]
        omega
    · simp only [groupCmp, hp]
      simp [hg, Ne.symm hg]
      omega
  · simp only [groupCmp]
    simp [hp, Ne.symm hp]
    omega

/-! ### Knockout progression lemmas -/

theorem progress_last_round (m : Match) (roundIndex matchIndex : Nat) (rounds : List KRound)
    (h : rounds.length - 1 ≤ roundIndex) :
    progressWinnerToNextRound m roundIndex matchIndex rounds = rounds := by
  unfold progressWinnerToNextRound
  rcases m.winner with _ | w
  · rfl
  · dsimp only
    rw [if_pos h]

theorem modifyAt_append_last (l : List α) (x : α) (f : α → α) :
    modifyAt (l ++ [x]) l.length f = l ++ [f x] := by
  induction l with
  | nil => rfl
  | cons y ys ih =>
    have hg : (ys ++ [x]).get? ys.length = some x := by
      rw [List.get?_eq_getElem?]
      exact List.getElem?_concat_length ys x
    show modifyAt (y :: (ys ++ [x])) (ys.length + 1) f = y :: (ys ++ [f x])
    unfold modifyAt
    rw [List.get?_cons_succ, hg]
    dsimp only
    rw [List.set_cons_succ]
    congr 1
    have hih := ih
    unfold modifyAt at hih
    rw [hg] at hih
    exact hih

theorem updateResult_played (m : Match) (h a : Int) : (updateResult m h a).played = true := by
  unfold updateResult
  dsimp only
  split_ifs <;> rfl

theorem kcExtraTimeStep_played (m : Match) (et : Option (Int × Int)) :
    (kcExtraTimeStep m et).played = m.played := by
  unfold kcExtraTimeStep
  rcases et with _ | ⟨eh, ea⟩
  · rfl
  · dsimp only
    split_ifs <;> rfl

theorem kcPenaltyStep_played (m : Match) (pens : Option (Int × Int)) :
    (kcPenaltyStep m pens).played = m.played := by
  unfold kcPenaltyStep
  rcases pens with _ | ⟨ph, pa⟩
  · rfl
  · dsimp only
    split_ifs <;> rfl

theorem kcEnsureWinner_played (m : Match) (h a : Int) :
    (kcEnsureWinner m h a).played = m.played := by
  unfold kcEnsureWinner
  split_ifs <;> rfl

theorem kcApplyResult_played (m : Match) (h a : Int)
    (et pens : Option (Int × Int)) : (kcApplyResult m h a et pens).played = true := by
  unfold kcApplyResult
  rw [kcEnsureWinner_played, kcPenaltyStep_played, kcExtraTimeStep_played,
    updateResult_played]

theorem kcApplyResult_none_none_gt (m : Match) (h a : Int) (hgt : a < h) :
    kcApplyResult m h a none none = updateResult m h a ∧
    (updateResult m h a).winner = some m.homeTeam := by
  have hw : (updateResult m h a).winner = some m.homeTeam := by
    unfold updateResult
    dsimp only
    rw [if_pos hgt]
  refine ⟨?_, hw⟩
  unfold kcApplyResult kcPenaltyStep kcExtraTimeStep kcEnsureWinner
  rw [hw]
  simp

theorem findMatchInRounds_append_last (pre : List KRound) (fname : String) (fm : Match)
    (matchId : String)
    (hnot : ∀ r ∈ pre, ∀ mm ∈ r.«matches», ¬ mm.id = matchId)
    (hfm : fm.id = matchId) :
    findMatchInRounds (pre ++ [⟨fname, [fm]⟩]) matchId = some (pre.length, 0, fm) := by
  induction pre with
  | nil =>
    show findMatchInRounds [⟨fname, [fm]⟩] matchId = some (0, 0, fm)
    unfold findMatchInRounds
    have hfi : List.findIdx? (fun mm => mm.id == matchId) [fm] = some 0 := by
      simp [List.findIdx?_cons, hfm]
    rw [hfi]
    rfl
  | cons r rs ih =>
    have hr := hnot r (List.mem_cons_self r rs)
    have hnone : List.findIdx? (fun mm => mm.id == matchId) r.«matches» = none :=
      findIdx?_eq_none_of_all (fun mm hmm => beq_eq_false_iff_ne.mpr (hr mm hmm))
    have hih := ih (fun r' hr' => hnot r' (List.mem_cons_of_mem r hr'))
    show findMatchInRounds (r :: (rs ++ [⟨fname, [fm]⟩])) matchId = some (rs.length + 1, 0, fm)
    unfold findMatchInRounds
    rw [hnone, hih]
    rfl

/-! ### Claim theorems -/

/-- C4: deciding the final — the single match of the last knockout
round — with a winning home score moves the tournament to stage
"complete" and status "completed"; the champion query
(`getTournamentWinner`) returns the winner, and no bracket
propagation happens: the earlier rounds are exactly as before and the
final round only records the result. -/
theorem c4_final_completion :
    ∀ (pre : List KRound) (fname matchId : String) (fm : Match) (stage status : String)
      (h a : Int)
      (hnot : ∀ r ∈ pre, ∀ mm ∈ r.«matches», ¬ mm.id = matchId)
      (hfm : fm.id = matchId)
      (hscore : a < h),
      (kcUpdateMatchResult ⟨pre ++ [⟨fname, [fm]⟩], stage, status⟩ matchId h a none none).1 =
        true ∧
      (kcUpdateMatchResult ⟨pre ++ [⟨fname, [fm]⟩], stage, status⟩ matchId h a none none).2 =
        ⟨pre ++ [⟨fname, [updateResult fm h a]⟩], "complete", "completed"⟩ ∧
      getTournamentWinner
          (kcUpdateMatchResult ⟨pre ++ [⟨fname, [fm]⟩], stage, status⟩
            matchId h a none none).2.rounds =
        some fm.homeTeam := by
  intro pre fname matchId fm stage status h a hnot hfm hscore
  have hfind := findMatchInRounds_append_last pre fname fm matchId hnot hfm
  obtain ⟨happly, hwin⟩ := kcApplyResult_none_none_gt fm h a hscore
  have hset : setMatchAt (pre ++ [⟨fname, [fm]⟩]) pre.length 0 (updateResult fm h a) =
      pre ++ [⟨fname, [updateResult fm h a]⟩] := by
    unfold setMatchAt
    rw [modifyAt_append_last]
    rfl
  have hprog : progressWinnerToNextRound (updateResult fm h a) pre.length 0
      (pre ++ [⟨fname, [updateResult fm h a]⟩]) =
      pre ++ [⟨fname, [updateResult fm h a]⟩] := by
    apply progress_last_round
    simp
  have hcomplete : isTournamentComplete (pre ++ [⟨fname, [updateResult fm h a]⟩]) = true := by
    unfold isTournamentComplete
    rw [List.getLast?_concat]
    simp [updateResult_played]
  have hstep : kcUpdateMatchResult ⟨pre ++ [⟨fname, [fm]⟩], stage, status⟩ matchId h a none none =
      (true, ({ rounds := pre ++ [⟨fname, [updateResult fm h a]⟩], stage := "complete",
                status := "completed" } : AppState)) := by
    unfold kcUpdateMatchResult
    dsimp only
    rw [hfind]
    dsimp only
    rw [happly, hset, hprog, hcomplete]
    simp
  refine ⟨by rw [hstep], by rw [hstep], ?_⟩
  rw [hstep]
  show getTournamentWinner
      (pre ++ [({ name := fname, «matches» := [updateResult fm h a] } : KRound)]) =
    some fm.homeTeam
  unfold getTournamentWinner
  rw [hcomplete]
  have hlen : ((pre ++ [({ name := fname, «matches» := [updateResult fm h a] } : KRound)]).length
      == 0) = false := by
    simp
  rw [hlen]
  rw [List.getLast?_concat]
  dsimp only
  exact hwin

/-- C4 witness: a one-round bracket holding only the final; a 2-0
final result completes the tournament with Alpha as champion. -/
theorem c4_final_completion_witness :
    (kcUpdateMatchResult finalOnlyState "final_0" 2 0 none none).2.stage = "complete" ∧
    (kcUpdateMatchResult finalOnlyState "final_0" 2 0 none none).2.status = "completed" ∧
    getTournamentWinner (kcUpdateMatchResult finalOnlyState "final_0" 2 0 none none).2.rounds =
      some teamAlpha := by
  have hh := c4_final_completion [] "Final" "final_0"
    (knockoutMatch "final_0" teamAlpha teamCeres "Final" 3) "knockout" "active" 2 0
    (by simp) rfl (by decide)
  exact ⟨congrArg AppState.stage hh.2.1, congrArg AppState.status hh.2.1, hh.2.2⟩

/-- C6: for a knockout round that is not the last, deciding the match
at index `matchIndex` writes its winner into match
`⌊matchIndex / 2⌋` of the next round — the home slot when
`matchIndex` is even, the away slot when odd — and changes nothing
else: every other round is untouched, the next round keeps its match
count, and every other match of the next round is untouched.  This
holds for `progressWinnerToNextRound` of the KnockoutController and
for `Tournament._updateKnockoutProgression`. -/
theorem c6_progression_parity :
    ∀ (rounds : List KRound) (m : Match) (roundIndex matchIndex : Nat) (w : Team) (nr : KRound)
      (hw : m.winner = some w)
      (hnr : rounds[roundIndex + 1]? = some nr)
      (hmi : matchIndex / 2 < nr.«matches».length),
      progressWinnerToNextRound m roundIndex matchIndex rounds =
        rounds.set (roundIndex + 1)
          { nr with «matches» :=
              (nr.«matches».set (matchIndex / 2)
                (if matchIndex % 2 = 0 then
                  { nr.«matches».get ⟨matchIndex / 2, hmi⟩ with homeTeam := w }
                 else
                  { nr.«matches».get ⟨matchIndex / 2, hmi⟩ with awayTeam := w })) } ∧
      (progressWinnerToNextRound m roundIndex matchIndex rounds).length = rounds.length ∧
      (∀ k, ¬ k = roundIndex + 1 →
        (progressWinnerToNextRound m roundIndex matchIndex rounds)[k]? = rounds[k]?) ∧
      ((progressWinnerToNextRound m roundIndex matchIndex rounds)[roundIndex + 1]?).map
          (fun r => r.«matches».length) = some nr.«matches».length ∧
      (∀ j, ¬ j = matchIndex / 2 →
        ((progressWinnerToNextRound m roundIndex matchIndex rounds)[roundIndex + 1]?).map
            (fun r => r.«matches»[j]?) = some (nr.«matches»[j]?)) ∧
      (∀ status : String,
        findMatchInRounds rounds m.id = some (roundIndex, matchIndex, m) →
        tournamentUpdateKnockoutProgression rounds status m =
          (rounds.set (roundIndex + 1)
            { nr with «matches» :=
                (nr.«matches».set (matchIndex / 2)
                  (if matchIndex % 2 = 0 then
                    { nr.«matches».get ⟨matchIndex / 2, hmi⟩ with homeTeam := w }
                   else
                    { nr.«matches».get ⟨matchIndex / 2, hmi⟩ with awayTeam := w })) }, status)) := by
  intro rounds m roundIndex matchIndex w nr hw hnr hmi
  have hlt : roundIndex + 1 < rounds.length := (List.getElem?_eq_some.mp hnr).1
  have hguard : ¬ rounds.length - 1 ≤ roundIndex := by omega
  have hmain : progressWinnerToNextRound m roundIndex matchIndex rounds =
      rounds.set (roundIndex + 1)
        { nr with «matches» :=
            (nr.«matches».set (matchIndex / 2)
              (if matchIndex % 2 = 0 then
                { nr.«matches».get ⟨matchIndex / 2, hmi⟩ with homeTeam := w }
               else
                { nr.«matches».get ⟨matchIndex / 2, hmi⟩ with awayTeam := w })) } := by
    unfold progressWinnerToNextRound
    rw [hw]
    dsimp only
    rw [if_neg hguard, hnr]
    dsimp only
    rw [dif_pos hmi]
  refine ⟨hmain, ?_, ?_, ?_, ?_, ?_⟩
  · rw [hmain]
    exact List.length_set rounds _ _
  · intro k hk
    rw [hmain]
    exact List.getElem?_set_ne (fun he => hk he.symm)
  · rw [hmain]
    simp [List.getElem?_set_self, hlt]
  · intro j hj
    rw [hmain]
    simp only [List.getElem?_set_self, hlt, Option.map_some']
    · congr 1
      exact List.getElem?_set_ne (fun he => hj he.symm)
  · intro status hfind
    unfold tournamentUpdateKnockoutProgression
    rw [hw]
    dsimp only
    rw [hfind]
    dsimp only
    rw [if_pos hlt, hnr]
    dsimp only
    rw [dif_pos hmi]

/-- C6 witness: deciding semifinal `sf_1` (index 1, odd) with winner
Ceres writes Ceres into the away slot of the final. -/
theorem c6_progression_parity_witness :
    progressWinnerToNextRound
        (kcApplyResult (knockoutMatch "sf_1" teamCeres teamDelta "Semifinals" 2) 1 0 none none)
        0 1 semisState.rounds =
      [⟨"Semifinals", [knockoutMatch "sf_0" teamAlpha teamBeta "Semifinals" 2,
                       knockoutMatch "sf_1" teamCeres teamDelta "Semifinals" 2]⟩,
       ⟨"Final", [{ knockoutMatch "final_0" tbdTeam tbdTeam "Final" 3 with awayTeam := teamCeres }]⟩] := by
  have hh := (c6_progression_parity semisState.rounds
    (kcApplyResult (knockoutMatch "sf_1" teamCeres teamDelta "Semifinals" 2) 1 0 none none)
    0 1 teamCeres (⟨"Final", [knockoutMatch "final_0" tbdTeam tbdTeam "Final" 3]⟩)
    (by with_unfolding_all rfl) (by rfl) (by decide)).1
  rw [hh]
  with_unfolding_all rfl

/-- C1 counterexample: the standings computed by the Helpers
calculator are not sorted by the claimed five-step chain (the one with
the head-to-head step, as implemented by `Group.sortStandings`): in
the concrete scenario Alpha and Beta are level on points, goal
difference and goals-for, Alpha won their head-to-head, yet the
Helpers calculator orders them purely by name. -/
theorem c1_counterexample :
    isSortedBy (fun a b => decide (groupCmp c1Matches a b ≤ 0))
      (calculateGroupStandings c1Teams c1Matches) = false := by
  rfl

/-- C1 amended: the Helpers standings calculator sorts by points
descending, goal difference descending, goals-for descending, then
name ascending — it has no head-to-head step; the Group aggregate's
recomputation sorts by the full chain including the head-to-head step
between the tied pair (no decision without a played match between
them), name last.  In both, every pair of consecutive rows satisfies
the respective comparator; for the Group chain this needs the matches
not to pair a team against itself (otherwise the head-to-head
comparator is not total). -/
theorem c1_standings_sort_order :
    (∀ (teams : List Team) (mlist : List Match),
      isSortedBy (fun a b => decide (cmpRows a b ≤ 0))
        (calculateGroupStandings teams mlist) = true) ∧
    (∀ (teams : List Team) (mlist : List Match),
      (∀ m ∈ mlist, ¬ m.homeTeam.id = m.awayTeam.id) →
      isSortedBy (fun a b => decide (groupCmp mlist a b ≤ 0))
        (recalculateStandings teams mlist) = true) := by
  constructor
  · intro teams mlist
    apply isSortedBy_sortBy
    intro a b
    rcases cmpRows_total a b with h | h
    · left
      simpa using h
    · right
      simpa using h
  · intro teams mlist hns
    apply isSortedBy_sortBy
    intro a b
    rcases groupCmp_total mlist hns a b with h | h
    · left
      simpa using h
    · right
      simpa using h

/-- C1 witness: the Group recomputation on the concrete scenario is
sorted by its own comparator chain. -/
theorem c1_standings_sort_order_witness :
    isSortedBy (fun a b => decide (groupCmp c1Matches a b ≤ 0))
      (recalculateStandings c1Teams c1Matches) = true :=
  c1_standings_sort_order.2 c1Teams c1Matches (by decide)

/-- C2: the claimed invariant "every played knockout match has a
non-null winner" fails on the code: submitting the drawn regulation
score 1-1 for semifinal `sf_0` through the public
`KnockoutController.updateMatchResult` (no extra time, no penalties)
succeeds and leaves the match with `played = true` and `winner = null`.
The "ensure there's a winner" fallback (knockoutController.js:462-469)
has no branch for equal scores. -/
theorem c2_played_knockout_match_without_winner :
    (kcUpdateMatchResult semisState "sf_0" 1 1 none none).1 = true ∧
    ((kcUpdateMatchResult semisState "sf_0" 1 1 none none).2.rounds[0]?).map
        (fun r => r.«matches».map (fun m => (m.id, m.played, m.winner))) =
      some [("sf_0", true, none), ("sf_1", false, none)] := by
  exact ⟨rfl, rfl⟩

/-- C3: submitting a level penalty shootout through the knockout
result pipeline (`KnockoutView._saveKnockoutMatchResult`) is rejected
by the `homePenScore === awayPenScore` validation
(knockoutView.js:614-617) before any controller or model code runs:
for every state, match id, score inputs and extra-time inputs, the
whole application state is returned unchanged with a failure flag, so
`winner`, `played` and the `penalties` record of every match keep
their prior values. -/
theorem c3_level_penalties_rejected_state_unchanged :
    ∀ (st : AppState) (matchId : String) (homeScoreInput awayScoreInput : Option Int)
      (extraTimeInput : Option (Option Int × Option Int)) (p : Int),
      saveKnockoutMatchResult st matchId homeScoreInput awayScoreInput extraTimeInput
        (some (some p, some p)) = (st, false) := by
  intro st matchId hOpt aOpt etOpt p
  rcases hOpt with _ | h
  · rfl
  rcases aOpt with _ | a
  · rfl
  unfold saveKnockoutMatchResult
  by_cases hneg : h < 0 ∨ a < 0
  · simp [hneg]
  · rcases etOpt with _ | ⟨eh, ea⟩
    · by_cases hp : p < 0 ∨ p < 0 <;> simp [hneg, hp]
    · rcases eh with _ | ehv
      · simp [hneg]
      rcases ea with _ | eav
      · simp [hneg]
      by_cases het : ehv < 0 ∨ eav < 0
      · simp [hneg, het]
      · by_cases hp : p < 0 ∨ p < 0 <;> simp [hneg, het, hp]

/-- C5 counterexample: for a 2-group tournament the quarterfinal round
generated by `KnockoutController.generateQuarterfinals` contains 2
matches, not 4; and the legacy `Helpers.generateQuarterfinals` pairs
the qualifiers sequentially (its first 4-group match is
winner0 vs winner1, not winner0 vs runnerUp3). -/
theorem c5_counterexample :
    (kcGenerateQuarterfinals [qtW0, qtW1] [qtR0, qtR1] []).length = 2 ∧
    ¬ (kcGenerateQuarterfinals [qtW0, qtW1] [qtR0, qtR1] []).length = 4 ∧
    ((generateQuarterfinals [qtW0, qtW1, qtW2, qtW3] [qtR0, qtR1, qtR2, qtR3] []).map
        (fun m => (m.homeTeam, m.awayTeam)))[0]? = some (qtW0.team, qtW1.team) ∧
    ¬ ((generateQuarterfinals [qtW0, qtW1, qtW2, qtW3] [qtR0, qtR1, qtR2, qtR3] []).map
        (fun m => (m.homeTeam, m.awayTeam)))[0]? = some (qtW0.team, qtR3.team) := by
  exact ⟨rfl, by decide, rfl, by decide⟩

/-- C5 amended: for the KnockoutController bracket generator, a
4-group tournament yields four quarterfinals pairing
`winner[i]` vs `runnerUp[3-i]`, and a 2-group tournament yields a
quarterfinal round of exactly 2 matches pairing `winner[0]` vs
`runnerUp[1]` and `winner[1]` vs `runnerUp[0]`. -/
theorem c5_bracket_pairings :
    (∀ (w0 w1 w2 w3 r0 r1 r2 r3 : QTeam) (bt : List QTeam),
      kcGenerateQuarterfinals [w0, w1, w2, w3] [r0, r1, r2, r3] bt =
        [knockoutMatch "qf_0" w0.team r3.team "Quarterfinals" 1,
         knockoutMatch "qf_1" w1.team r2.team "Quarterfinals" 1,
         knockoutMatch "qf_2" w2.team r1.team "Quarterfinals" 1,
         knockoutMatch "qf_3" w3.team r0.team "Quarterfinals" 1]) ∧
    (∀ (w0 w1 r0 r1 : QTeam) (bt : List QTeam),
      kcGenerateQuarterfinals [w0, w1] [r0, r1] bt =
        [knockoutMatch "qf_0" w0.team r1.team "Quarterfinals" 1,
         knockoutMatch "qf_1" w1.team r0.team "Quarterfinals" 1]) := by
  constructor
  · intro w0 w1 w2 w3 r0 r1 r2 r3 bt
    with_unfolding_all rfl
  · intro w0 w1 r0 r1 bt
    with_unfolding_all rfl

/-- C7 counterexample: `Match.updateResult` applied to the negative
score pair (-1, 0) is not rejected: it mutates the match, setting
`played = true`, recording the negative score and declaring the away
team winner. -/
theorem c7_counterexample :
    (updateResult (baseGroupMatch "m0" teamAlpha teamBeta) (-1) 0).played = true ∧
    (updateResult (baseGroupMatch "m0" teamAlpha teamBeta) (-1) 0).homeScore = some (-1) ∧
    (updateResult (baseGroupMatch "m0" teamAlpha teamBeta) (-1) 0).winner = some teamBeta ∧
    (baseGroupMatch "m0" teamAlpha teamBeta).played = false := by
  refine ⟨by decide, by decide, by decide, rfl⟩

/-- C7 amended: `Match.updateResult` and `Helpers.updateMatchResult`
perform no score validation themselves — for every pair of integer
scores (negative included) they coincide, record the scores, mark the
match played and set the winner by comparison; rejection of negative
or non-numeric scores happens earlier, in the view-layer submission
pipeline, which returns with the state untouched. -/
theorem c7_no_model_validation :
    (∀ (m : Match) (homeScore awayScore : Int),
       updateResult m homeScore awayScore = updateMatchResult m homeScore awayScore ∧
       (updateResult m homeScore awayScore).played = true ∧
       (updateResult m homeScore awayScore).homeScore = some homeScore ∧
       (updateResult m homeScore awayScore).awayScore = some awayScore ∧
       (updateResult m homeScore awayScore).winner =
         (if homeScore > awayScore then some m.homeTeam
          else if homeScore < awayScore then some m.awayTeam else none)) ∧
    (∀ (st : AppState) (matchId : String) (h a : Int)
       (et pens : Option (Option Int × Option Int)),
       h < 0 ∨ a < 0 →
       saveKnockoutMatchResult st matchId (some h) (some a) et pens = (st, false)) := by
  constructor
  · intro m homeScore awayScore
    refine ⟨rfl, ?_, ?_, ?_, ?_⟩ <;>
      · unfold updateResult
        split_ifs <;> rfl
  · intro st matchId h a et pens hneg
    unfold saveKnockoutMatchResult
    simp [hneg]

/-- C7 witness: the amended statement applied at a concrete negative
input. -/
theorem c7_no_model_validation_witness :
    (updateResult (baseGroupMatch "m0" teamAlpha teamBeta) (-2) 5).played = true ∧
    saveKnockoutMatchResult semisState "sf_0" (some (-2)) (some 5) none none =
      (semisState, false) :=
  ⟨(c7_no_model_validation.1 (baseGroupMatch "m0" teamAlpha teamBeta) (-2) 5).2.1,
   c7_no_model_validation.2 semisState "sf_0" (-2) 5 none none (by decide)⟩

/-- C8: group match generation on 4 teams produces exactly 6 matches
over three matchdays with the fixed pattern (matchday 1: t1-t4, t2-t3;
matchday 2: t1-t2, t3-t4; matchday 3: t3-t1, t4-t2, stated home sides),
both for `Match.createGroupMatches` and for
`Helpers.generateMatchSchedule`; the pattern's unordered index pairs
are exactly the six unordered pairs of the four team slots, so every
unordered pair of teams appears exactly once. -/
theorem c8_group_match_generation :
    (∀ (fresh : Nat → String) (t0 t1 t2 t3 : Team) (g : String),
      createGroupMatches fresh [t0, t1, t2, t3] g =
        [newGroupMatch (fresh 0) t0 t3 1 g, newGroupMatch (fresh 1) t1 t2 1 g,
         newGroupMatch (fresh 2) t0 t1 2 g, newGroupMatch (fresh 3) t2 t3 2 g,
         newGroupMatch (fresh 4) t2 t0 3 g, newGroupMatch (fresh 5) t3 t1 3 g]) ∧
    (matchPattern.flatten.map (fun p => (min p.1 p.2, max p.1 p.2))).Perm
      [(0, 1), (0, 2), (0, 3), (1, 2), (1, 3), (2, 3)] ∧
    (∀ (now : String) (t0 t1 t2 t3 : Team),
      generateMatchSchedule now [t0, t1, t2, t3] =
        [⟨1, [⟨generateMatchId t0.id t3.id 1 now, 1, t0, t3, none, none, false⟩,
              ⟨generateMatchId t1.id t2.id 1 now, 1, t1, t2, none, none, false⟩]⟩,
         ⟨2, [⟨generateMatchId t0.id t1.id 2 now, 2, t0, t1, none, none, false⟩,
              ⟨generateMatchId t2.id t3.id 2 now, 2, t2, t3, none, none, false⟩]⟩,
         ⟨3, [⟨generateMatchId t2.id t0.id 3 now, 3, t2, t0, none, none, false⟩,
              ⟨generateMatchId t3.id t1.id 3 now, 3, t3, t1, none, none, false⟩]⟩]) := by
  refine ⟨?_, by decide, ?_⟩
  · intro fresh t0 t1 t2 t3 g
    with_unfolding_all rfl
  · intro now t0 t1 t2 t3
    with_unfolding_all rfl

/-- C10: both standings calculators produce one row per input team
(the multiset of row identities equals the multiset of team
identities, and the row count equals the team count), every produced
row satisfies `played = won + drawn + lost`,
`points = 3*won + drawn` and
`goalDifference = goalsFor - goalsAgainst`; and a match whose home or
away team id is absent from the team list contributes to no row at
all: appending it to the match list changes neither the accumulated
rows nor the computed table. -/
theorem c10_standings_invariants :
    (∀ (teams : List Team) (mlist : List Match),
      (calculateGroupStandings teams mlist).length = teams.length ∧
      ((calculateGroupStandings teams mlist).map rowKey).Perm (teams.map teamKey) ∧
      (∀ r ∈ calculateGroupStandings teams mlist,
        r.played = r.won + r.drawn + r.lost ∧ r.points = 3 * r.won + r.drawn ∧
        r.goalDifference = r.goalsFor - r.goalsAgainst) ∧
      (recalculateStandings teams mlist).length = teams.length ∧
      ((recalculateStandings teams mlist).map rowKey).Perm (teams.map teamKey) ∧
      (∀ r ∈ recalculateStandings teams mlist,
        r.played = r.won + r.drawn + r.lost ∧ r.points = 3 * r.won + r.drawn ∧
        r.goalDifference = r.goalsFor - r.goalsAgainst)) ∧
    (∀ (teams : List Team) (mlist : List Match) (m : Match),
      ((∀ t ∈ teams, ¬ t.id = m.homeTeam.id) ∨ (∀ t ∈ teams, ¬ t.id = m.awayTeam.id)) →
      (mlist ++ [m]).foldl processMatch (teams.map initRow) =
        mlist.foldl processMatch (teams.map initRow) ∧
      calculateGroupStandings teams (mlist ++ [m]) = calculateGroupStandings teams mlist) := by
  have hinit : ∀ (teams : List Team), ∀ r ∈ teams.map initRow, accRow r := by
    intro teams r hr
    obtain ⟨t, _, he⟩ := List.mem_map.mp hr
    exact he ▸ ⟨rfl, rfl⟩
  have hkeys : ∀ (teams : List Team) (mlist : List Match),
      (mlist.foldl processMatch (teams.map initRow)).map rowKey = teams.map teamKey := by
    intro teams mlist
    rw [map_rowKey_foldl, List.map_map]
    rfl
  constructor
  · intro teams mlist
    have hlen_acc : (mlist.foldl processMatch (teams.map initRow)).length = teams.length :=
      (length_foldl_processMatch mlist _).trans (List.length_map teams initRow)
    have hacc : ∀ r ∈ mlist.foldl processMatch (teams.map initRow), accRow r :=
      accRow_foldl mlist _ (hinit teams)
    have hpermH : (calculateGroupStandings teams mlist).Perm
        (applyGD (mlist.foldl processMatch (teams.map initRow))) :=
      perm_sortBy _ _
    have hpermG : (recalculateStandings teams mlist).Perm
        (applyGD (mlist.foldl processMatch (teams.map initRow))) :=
      perm_sortBy _ _
    refine ⟨?_, ?_, ?_, ?_, ?_, ?_⟩
    · rw [hpermH.length_eq, length_applyGD]
      exact hlen_acc
    · have := hpermH.map rowKey
      rwa [map_rowKey_applyGD, hkeys teams mlist] at this
    · intro r hr
      have hr' := hpermH.mem_iff.mp hr
      obtain ⟨h1, h2⟩ := accRow_applyGD _ (hacc) r hr'
      exact ⟨h1, h2, gd_applyGD _ r hr'⟩
    · rw [hpermG.length_eq, length_applyGD]
      exact hlen_acc
    · have := hpermG.map rowKey
      rwa [map_rowKey_applyGD, hkeys teams mlist] at this
    · intro r hr
      have hr' := hpermG.mem_iff.mp hr
      obtain ⟨h1, h2⟩ := accRow_applyGD _ (hacc) r hr'
      exact ⟨h1, h2, gd_applyGD _ r hr'⟩
  · intro teams mlist m habs
    have hid : ∀ r ∈ mlist.foldl processMatch (teams.map initRow), ∃ t ∈ teams, t.id = r.id := by
      intro r hr
      have hkmem : rowKey r ∈ (mlist.foldl processMatch (teams.map initRow)).map rowKey :=
        List.mem_map_of_mem rowKey hr
      rw [hkeys teams mlist] at hkmem
      obtain ⟨t, ht, hkey⟩ := List.mem_map.mp hkmem
      exact ⟨t, ht, congrArg Prod.fst hkey⟩
    have hfold : (mlist ++ [m]).foldl processMatch (teams.map initRow) =
        mlist.foldl processMatch (teams.map initRow) := by
      rw [List.foldl_append, List.foldl_cons, List.foldl_nil]
      rcases habs with habs | habs
      · apply processMatch_home_absent
        apply findIdx?_eq_none_of_all
        intro r hr
        obtain ⟨t, ht, hti⟩ := hid r hr
        have hne : ¬ r.id = m.homeTeam.id := hti ▸ habs t ht
        exact beq_eq_false_iff_ne.mpr hne
      · apply processMatch_away_absent
        apply findIdx?_eq_none_of_all
        intro r hr
        obtain ⟨t, ht, hti⟩ := hid r hr
        have hne : ¬ r.id = m.awayTeam.id := hti ▸ habs t ht
        exact beq_eq_false_iff_ne.mpr hne
    refine ⟨hfold, ?_⟩
    unfold calculateGroupStandings
    rw [hfold]

/-- C10 witness: a played match between an unknown team "Zulu" and
Alpha appended to the concrete match list changes nothing. -/
theorem c10_standings_invariants_witness :
    calculateGroupStandings c1Teams
        (c1Matches ++ [updateResult (baseGroupMatch "mx" ⟨some "zz", "Zulu"⟩ teamAlpha) 2 0]) =
      calculateGroupStandings c1Teams c1Matches :=
  (c10_standings_invariants.2 c1Teams c1Matches
    (updateResult (baseGroupMatch "mx" ⟨some "zz", "Zulu"⟩ teamAlpha) 2 0)
    (Or.inl (by decide))).2

/-- C9: serialization is not round-trip safe for `roundIndex = 0`: a
Round-of-16 match record carrying `roundIndex = 0` (the value the
generator passes) comes back from serialize + deserialize with
`roundIndex = null`; indeed the `Match` constructor itself
(`config.roundIndex || null`, match.js:27) already collapses the 0 at
construction time. -/
theorem c9_roundindex_zero_lost :
    (deserializeMatch "match_fresh" (serializeMatch r16MatchWithIndexZero)).roundIndex = none ∧
    r16MatchWithIndexZero.roundIndex = some 0 ∧
    (knockoutMatch "r16_0" teamAlpha teamBeta "Round of 16" 0).roundIndex = none := by
  exact ⟨rfl, rfl, rfl⟩

end EFT
